import Mathlib

/-!
Shallow embedding of the synthetic load-curve generator of `tapo_pull.py`
and the device-info shaper of `mock_device_info.py`.

Modelling conventions:
* Python floats are modelled as exact rationals (`ℚ`); `round(x, 3)` is
  modelled as rounding `x * 1000` to the nearest integer and dividing back.
* The shared global random source is modelled as an explicit stream
  `r : ℕ → ℚ` of unit-interval draws (successive results of
  `random.random()`), together with an explicit index `k` of the next
  unused draw, threaded through the computation exactly in the order the
  Python code consumes draws.
* Dates are modelled as integers counting days from a fixed Monday epoch,
  so that Python's `date.weekday() >= 5` becomes `5 ≤ d % 7`, and
  `date + timedelta(days=1)` becomes `d + 1`.
-/

namespace TapoPull

/-- Model of Python `round(q, 3)`: round to 3 decimal places. -/
def round3 (q : ℚ) : ℚ := ((round (q * 1000) : ℤ) : ℚ) / 1000

/-- A per-device load profile, the value type of `DEVICE_PATTERNS` in
`tapo_pull.py`. -/
structure Pattern where
  base_load : ℚ
  peak_hours : List (ℕ × ℕ)
  peak_multiplier : ℚ
  weekend_multiplier : ℚ
  deriving DecidableEq, Repr

/-- The `DEVICE_PATTERNS` dict of `tapo_pull.py`, as a lookup function. -/
def DEVICE_PATTERNS (device_id : String) : Option Pattern :=
  if device_id = "device1" then some ⟨0.02, [(18, 23)], 3, 1.2⟩
  else if device_id = "device2" then some ⟨0.015, [(14, 22)], 4, 1.5⟩
  else if device_id = "device3" then some ⟨0.05, [(7, 9), (18, 23)], 2.5, 1.3⟩
  else none

/-- The inline fallback profile of `generate_mock_hourly_data`
(`tapo_pull.py` lines 50-55). -/
def defaultPattern : Pattern := ⟨0.02, [(9, 21)], 2, 1.1⟩

/-- `DEVICE_PATTERNS.get(device_id, default)` in the source. -/
def getPattern (device_id : String) : Pattern :=
  (DEVICE_PATTERNS device_id).getD defaultPattern

/-- `date.weekday() >= 5` under the Monday-epoch date model. -/
def isWeekendDay (d : ℤ) : Bool := decide (5 ≤ d % 7)

/-- One step of the `for start, end in pattern["peak_hours"]` loop inside
`generate_mock_hourly_data`: the running state is the pair
(consumption so far, index of the next unused draw). -/
def peakFoldStep (p : Pattern) (h : ℕ) (r : ℕ → ℚ) (ck : ℚ × ℕ) (w : ℕ × ℕ) : ℚ × ℕ :=
  if w.1 ≤ h ∧ h < w.2 then
    (ck.1 * p.peak_multiplier * (0.7 + r ck.2 * 0.6), ck.2 + 1)
  else ck

/-- Body of the `for hour in range(24)` loop of `generate_mock_hourly_data`:
the appended value and the updated draw index. -/
def hourValue (p : Pattern) (wknd : Bool) (h : ℕ) (r : ℕ → ℚ) (k : ℕ) : ℚ × ℕ :=
  let c0 := p.base_load * (0.8 + r k * 0.4)
  let ck := p.peak_hours.foldl (peakFoldStep p h r) (c0, k + 1)
  let c1 := if wknd then ck.1 * p.weekend_multiplier else ck.1
  (round3 c1, ck.2)

/-- The consumption computed for one hour before the final `round(..., 3)`. -/
def rawHourValue (p : Pattern) (wknd : Bool) (h : ℕ) (r : ℕ → ℚ) (k : ℕ) : ℚ :=
  let c0 := p.base_load * (0.8 + r k * 0.4)
  let ck := p.peak_hours.foldl (peakFoldStep p h r) (c0, k + 1)
  if wknd then ck.1 * p.weekend_multiplier else ck.1

/-- The hour loop of `generate_mock_hourly_data` over a given list of hours,
returning the generated list and the next unused draw index. -/
def hourlyFrom (p : Pattern) (wknd : Bool) (r : ℕ → ℚ) : List ℕ → ℕ → List ℚ × ℕ
  | [], k => ([], k)
  | h :: hs, k =>
    let vk := hourValue p wknd h r k
    let rest := hourlyFrom p wknd r hs vk.2
    (vk.1 :: rest.1, rest.2)

/-- `generate_mock_hourly_data` once the profile has been resolved, with an
explicit starting draw index. -/
def hourlyForPattern (p : Pattern) (date : ℤ) (r : ℕ → ℚ) (k : ℕ) : List ℚ × ℕ :=
  hourlyFrom p (isWeekendDay date) r (List.range 24) k

/-- `generate_mock_hourly_data(device_id, date)` of `tapo_pull.py`. -/
def generate_mock_hourly_data (device_id : String) (date : ℤ) (r : ℕ → ℚ) : List ℚ :=
  (hourlyForPattern (getPattern device_id) date r 0).1

/-- The `for _ in range(days)` loop of `generate_mock_daily_data`. -/
def dailyFrom (p : Pattern) (r : ℕ → ℚ) : ℕ → ℤ → ℕ → List ℚ × ℕ
  | 0, _, k => ([], k)
  | n + 1, d, k =>
    let hk := hourlyForPattern p d r k
    let s := hk.1.sum * (0.9 + r hk.2 * 0.2)
    let rest := dailyFrom p r n (d + 1) (hk.2 + 1)
    (round3 s :: rest.1, rest.2)

/-- `generate_mock_daily_data` once the profile has been resolved, with an
explicit starting draw index.  `days.toNat` models `range(days)`, which is
empty for `days ≤ 0`. -/
def dailyForPattern (p : Pattern) (start : ℤ) (days : ℤ) (r : ℕ → ℚ) (k : ℕ) : List ℚ × ℕ :=
  dailyFrom p r days.toNat start k

/-- `generate_mock_daily_data(device_id, start_date, days)` of `tapo_pull.py`. -/
def generate_mock_daily_data (device_id : String) (start : ℤ) (days : ℤ) (r : ℕ → ℚ) : List ℚ :=
  (dailyForPattern (getPattern device_id) start days r 0).1

/-- The `MOCK_DEVICE_NAMES` dict of `tapo_pull.py`, as a lookup function. -/
def MOCK_DEVICE_NAMES (device_id : String) : Option String :=
  if device_id = "device1" then some "Sonos Lamp"
  else if device_id = "device2" then some "Nintendo Switch"
  else if device_id = "device3" then some "Living Room TV"
  else none

/-- Shape of the `device_info` dict in the mock device reading, also the
return shape of `MockDeviceInfo.to_dict`. -/
structure DeviceInfoDict where
  device_id : String
  name : String
  type : String
  model : String
  deriving DecidableEq, Repr

/-- One of the `hourly` / `daily` sub-dicts of the mock device reading.
The timestamp is modelled as the date value it is taken from (the source
stamps `datetime.now().isoformat()`). -/
structure SeriesDict where
  data : List ℚ
  time_stamp : ℤ
  deriving DecidableEq, Repr

/-- The full dict returned by `get_mock_device_data`. -/
structure DeviceReading where
  device_info : DeviceInfoDict
  hourly : SeriesDict
  daily : SeriesDict
  deriving DecidableEq, Repr

/-- `get_mock_device_data(device_id)` of `tapo_pull.py`.  `now` stands for
`datetime.now()` and the draw stream continues from the hourly series into
the daily series, as the shared global random source does in the source. -/
def get_mock_device_data (device_id : String) (now : ℤ) (r : ℕ → ℚ) : DeviceReading :=
  let hk := hourlyForPattern (getPattern device_id) now r 0
  let dk := dailyForPattern (getPattern device_id) (now - 29) 30 r hk.2
  ⟨⟨device_id, (MOCK_DEVICE_NAMES device_id).getD ("Device " ++ device_id),
    "SMART.TAPOPLUG", "P110"⟩,
   ⟨hk.1, now⟩, ⟨dk.1, now⟩⟩

/-- `get_quarter_start_month(today)` of `tapo_pull.py`, as a function of
`today.month`. -/
def get_quarter_start_month (month : ℕ) : ℕ := 3 * ((month - 1) / 3) + 1

/-- The `MockDeviceInfo` dataclass of `mock_device_info.py`. -/
structure MockDeviceInfo where
  device_id : String
  name : String
  type : String
  model : String
  deriving DecidableEq, Repr

/-- `MockDeviceInfo.to_dict` of `mock_device_info.py`: note the `type` and
`model` entries are the hard-coded literals, not the instance fields. -/
def MockDeviceInfo.to_dict (self : MockDeviceInfo) : DeviceInfoDict :=
  ⟨self.device_id, self.name, "SMART.TAPOPLUG", "P110"⟩

/-! ### Spec-side restatement of the hourly algorithm (for refinement)

The specification (§4.1) describes the hourly algorithm in terms of uniform
draws `U(a, b)`; here each `U(a, b)` is realised as `a + r k * (b - a)` on
the same unit-draw stream the source embedding consumes, in the same order. -/

/-- A uniform draw `U(a, b)` realised from the unit draw at index `k`. -/
def unifDraw (r : ℕ → ℚ) (k : ℕ) (a b : ℚ) : ℚ := a + r k * (b - a)

/-- Spec wording of one hour (§4.1 steps 2-5): baseline draw, then once per
peak window containing `h` multiply by the peak multiplier and a fresh
`U(0.7, 1.3)`, then the weekend adjustment, then rounding. -/
def specHourValue (p : Pattern) (wknd : Bool) (h : ℕ) (r : ℕ → ℚ) (k : ℕ) : ℚ × ℕ :=
  let c0 := p.base_load * unifDraw r k 0.8 1.2
  let ck := (p.peak_hours.filter (fun w => decide (w.1 ≤ h ∧ h < w.2))).foldl
    (fun ck _ => (ck.1 * p.peak_multiplier * unifDraw r ck.2 0.7 1.3, ck.2 + 1)) (c0, k + 1)
  let c1 := if wknd then ck.1 * p.weekend_multiplier else ck.1
  (round3 c1, ck.2)

/-- Spec wording of the hour loop. -/
def specHourlyFrom (p : Pattern) (wknd : Bool) (r : ℕ → ℚ) : List ℕ → ℕ → List ℚ × ℕ
  | [], k => ([], k)
  | h :: hs, k =>
    let vk := specHourValue p wknd h r k
    let rest := specHourlyFrom p wknd r hs vk.2
    (vk.1 :: rest.1, rest.2)

/-- Spec wording of `generate_hourly` (§4.1): resolve the profile (or
default), then run the per-hour algorithm for each hour in [0, 24). -/
def spec_generate_hourly (device_id : String) (date : ℤ) (r : ℕ → ℚ) : List ℚ :=
  (specHourlyFrom (getPattern device_id) (isWeekendDay date) r (List.range 24) 0).1

/-! ### Draw accounting -/

/-- Number of peak windows of `p` containing hour `h`. -/
def matchCount (p : Pattern) (h : ℕ) : ℕ :=
  (p.peak_hours.filter (fun w => decide (w.1 ≤ h ∧ h < w.2))).length

/-- Number of unit draws consumed while generating hour `h`. -/
def hourDraws (p : Pattern) (h : ℕ) : ℕ := 1 + matchCount p h

/-- Number of unit draws consumed while generating the given hours. -/
def listDraws (p : Pattern) (hs : List ℕ) : ℕ := (hs.map (hourDraws p)).sum

/-- Number of unit draws consumed by one full 24-hour series. -/
def hourlyDraws (p : Pattern) : ℕ := listDraws p (List.range 24)

/-- Number of unit draws consumed by one day of the daily loop (a full
hourly series plus the day-level jitter draw). -/
def dayDraws (p : Pattern) : ℕ := hourlyDraws p + 1

/-- The value the daily loop appends for date `d` when the next unused draw
index is `k`: the day's hourly sum times the day-level jitter, rounded. -/
def dayValue (p : Pattern) (d : ℤ) (r : ℕ → ℚ) (k : ℕ) : ℚ :=
  round3 ((hourlyForPattern p d r k).1.sum * (0.9 + r (k + hourlyDraws p) * 0.2))

/-- The constant midpoint stream: every unit draw is `1/2`, so every
`U(a, b)` is the midpoint `(a + b) / 2`. -/
def midStream : ℕ → ℚ := fun _ => 1 / 2

/-! ### Structural lemmas -/

theorem foldl_if_filter {α β : Type} (P : α → Prop) [DecidablePred P]
    (f : β → β) :
    ∀ (l : List α) (b : β),
      l.foldl (fun acc x => if P x then f acc else acc) b
        = (l.filter (fun x => decide (P x))).foldl (fun acc _ => f acc) b := by
  intro l
  induction l with
  | nil => intro b; rfl
  | cons x xs ih =>
    intro b
    by_cases hx : P x <;> simp [List.filter_cons, hx, ih]

theorem peakFold_snd (p : Pattern) (h : ℕ) (r : ℕ → ℚ) :
    ∀ (l : List (ℕ × ℕ)) (c : ℚ) (k : ℕ),
      (l.foldl (peakFoldStep p h r) (c, k)).2
        = k + (l.filter (fun w => decide (w.1 ≤ h ∧ h < w.2))).length := by
  intro l
  induction l with
  | nil => intro c k; rfl
  | cons w ws ih =>
    intro c k
    by_cases hw : w.1 ≤ h ∧ h < w.2
    · simp [List.filter_cons, hw, peakFoldStep, ih]
      omega
    · simp [List.filter_cons, hw, peakFoldStep, ih]

theorem hourValue_snd (p : Pattern) (wknd : Bool) (h : ℕ) (r : ℕ → ℚ) (k : ℕ) :
    (hourValue p wknd h r k).2 = k + hourDraws p h := by
  simp [hourValue, peakFold_snd, hourDraws, matchCount]
  omega

theorem hourlyFrom_length (p : Pattern) (wknd : Bool) (r : ℕ → ℚ) :
    ∀ (hs : List ℕ) (k : ℕ), (hourlyFrom p wknd r hs k).1.length = hs.length := by
  intro hs
  induction hs with
  | nil => intro k; rfl
  | cons h hs ih => intro k; simp [hourlyFrom, ih]

theorem hourlyFrom_snd (p : Pattern) (wknd : Bool) (r : ℕ → ℚ) :
    ∀ (hs : List ℕ) (k : ℕ), (hourlyFrom p wknd r hs k).2 = k + listDraws p hs := by
  intro hs
  induction hs with
  | nil => intro k; simp [hourlyFrom, listDraws]
  | cons h hs ih =>
    intro k
    simp [hourlyFrom, ih, hourValue_snd, listDraws]
    omega

theorem dailyFrom_length (p : Pattern) (r : ℕ → ℚ) :
    ∀ (n : ℕ) (d : ℤ) (k : ℕ), (dailyFrom p r n d k).1.length = n := by
  intro n
  induction n with
  | zero => intro d k; rfl
  | succ n ih => intro d k; simp [dailyFrom, ih]

theorem hourValue_fst_round3 (p : Pattern) (wknd : Bool) (h : ℕ) (r : ℕ → ℚ) (k : ℕ) :
    (hourValue p wknd h r k).1 = round3 (rawHourValue p wknd h r k) := rfl

theorem rawHourValue_weekend (p : Pattern) (h : ℕ) (r : ℕ → ℚ) (k : ℕ) :
    rawHourValue p true h r k = rawHourValue p false h r k * p.weekend_multiplier := by
  simp [rawHourValue]

theorem peakFold_fst_const (p : Pattern) (h : ℕ) (c : ℚ) :
    ∀ (l : List (ℕ × ℕ)) (x : ℚ) (k1 k2 : ℕ),
      (l.foldl (peakFoldStep p h (fun _ => c)) (x, k1)).1
        = (l.foldl (peakFoldStep p h (fun _ => c)) (x, k2)).1 := by
  intro l
  induction l with
  | nil => intro x k1 k2; rfl
  | cons w ws ih =>
    intro x k1 k2
    by_cases hw : w.1 ≤ h ∧ h < w.2
    · simp only [List.foldl_cons, peakFoldStep, if_pos hw]
      exact ih _ _ _
    · simp only [List.foldl_cons, peakFoldStep, if_neg hw]
      exact ih _ _ _

theorem hourValue_fst_const (p : Pattern) (wknd : Bool) (h : ℕ) (c : ℚ) (k : ℕ) :
    (hourValue p wknd h (fun _ => c) k).1 = (hourValue p wknd h (fun _ => c) 0).1 := by
  simp only [hourValue]
  rw [peakFold_fst_const p h c p.peak_hours _ (k + 1) 1]

theorem rawHourValue_const (p : Pattern) (wknd : Bool) (h : ℕ) (c : ℚ) (k : ℕ) :
    rawHourValue p wknd h (fun _ => c) k = rawHourValue p wknd h (fun _ => c) 0 := by
  simp only [rawHourValue]
  rw [peakFold_fst_const p h c p.peak_hours _ (k + 1) 1]

theorem hourlyFrom_const_map (p : Pattern) (wknd : Bool) (c : ℚ) :
    ∀ (hs : List ℕ) (k : ℕ),
      (hourlyFrom p wknd (fun _ => c) hs k).1
        = hs.map (fun h => (hourValue p wknd h (fun _ => c) 0).1) := by
  intro hs
  induction hs with
  | nil => intro k; rfl
  | cons h hs ih =>
    intro k
    simp [hourlyFrom, ih, hourValue_fst_const]

theorem generate_const_get (device_id : String) (d : ℤ) (c : ℚ) (h : ℕ) (hh : h < 24) :
    (generate_mock_hourly_data device_id d (fun _ => c))[h]?
      = some ((hourValue (getPattern device_id) (isWeekendDay d) h (fun _ => c) 0).1) := by
  simp [generate_mock_hourly_data, hourlyForPattern, hourlyFrom_const_map,
    List.getElem?_map, List.getElem?_range hh]

theorem dailyFrom_get (p : Pattern) (r : ℕ → ℚ) :
    ∀ (n : ℕ) (d : ℤ) (k : ℕ) (i : ℕ), i < n →
      (dailyFrom p r n d k).1[i]?
        = some (dayValue p (d + i) r (k + i * dayDraws p)) := by
  intro n
  induction n with
  | zero => intro d k i hi; omega
  | succ n ih =>
    intro d k i hi
    match i with
    | 0 =>
      simp [dailyFrom, dayValue, hourlyForPattern, hourlyFrom_snd, hourlyDraws]
    | i + 1 =>
      have hi' : i < n := by omega
      simp only [dailyFrom, List.getElem?_cons_succ]
      rw [ih (d + 1) _ i hi']
      have harg : d + 1 + (i : ℤ) = d + ((i : ℕ) + 1 : ℕ) := by push_cast; ring
      have hk : (hourlyForPattern p d r k).2 + 1 + i * dayDraws p
          = k + (i + 1) * dayDraws p := by
        simp [hourlyForPattern, hourlyFrom_snd, dayDraws, hourlyDraws]
        ring
      rw [hk, harg]

theorem round3_nonneg {q : ℚ} (hq : 0 ≤ q) : 0 ≤ round3 q := by
  have h1 : (0 : ℤ) ≤ round (q * 1000) := by
    rw [round_eq, Int.le_floor]
    push_cast
    linarith
  unfold round3
  have h2 : ((round (q * 1000) : ℤ) : ℚ) ≥ 0 := by exact_mod_cast h1
  positivity

theorem peakFold_fst_nonneg (p : Pattern) (h : ℕ) (r : ℕ → ℚ)
    (hpm : 0 ≤ p.peak_multiplier) (hr : ∀ n, 0 ≤ r n) :
    ∀ (l : List (ℕ × ℕ)) (c : ℚ) (k : ℕ), 0 ≤ c →
      0 ≤ (l.foldl (peakFoldStep p h r) (c, k)).1 := by
  intro l
  induction l with
  | nil => intro c k hc; exact hc
  | cons w ws ih =>
    intro c k hc
    by_cases hw : w.1 ≤ h ∧ h < w.2
    · simp only [List.foldl_cons, peakFoldStep, if_pos hw]
      refine ih _ _ ?_
      have hk := hr k
      have hdraw : (0 : ℚ) ≤ 0.7 + r k * 0.6 := by
        have : (0 : ℚ) ≤ r k * 0.6 := by positivity
        linarith
      exact mul_nonneg (mul_nonneg hc hpm) hdraw
    · simp only [List.foldl_cons, peakFoldStep, if_neg hw]
      exact ih _ _ hc

theorem hourValue_fst_nonneg (p : Pattern) (wknd : Bool) (h : ℕ) (r : ℕ → ℚ) (k : ℕ)
    (hb : 0 ≤ p.base_load) (hpm : 0 ≤ p.peak_multiplier) (hwm : 0 ≤ p.weekend_multiplier)
    (hr : ∀ n, 0 ≤ r n) : 0 ≤ (hourValue p wknd h r k).1 := by
  have hc0 : (0 : ℚ) ≤ p.base_load * (0.8 + r k * 0.4) := by
    have := hr k
    have hdraw : (0 : ℚ) ≤ 0.8 + r k * 0.4 := by
      have : (0 : ℚ) ≤ r k * 0.4 := by positivity
      linarith
    exact mul_nonneg hb hdraw
  have hfold := peakFold_fst_nonneg p h r hpm hr p.peak_hours _ (k + 1) hc0
  apply round3_nonneg
  cases wknd with
  | false => simpa using hfold
  | true => simpa using mul_nonneg hfold hwm

theorem getPattern_nonneg (device_id : String) :
    0 ≤ (getPattern device_id).base_load ∧ 0 ≤ (getPattern device_id).peak_multiplier ∧
      0 ≤ (getPattern device_id).weekend_multiplier := by
  unfold getPattern DEVICE_PATTERNS
  repeat' split
  all_goals norm_num [defaultPattern]

theorem DEVICE_PATTERNS_mem {device_id : String} {p : Pattern}
    (hp : DEVICE_PATTERNS device_id = some p) :
    p ∈ ([⟨0.02, [(18, 23)], 3, 1.2⟩, ⟨0.015, [(14, 22)], 4, 1.5⟩,
          ⟨0.05, [(7, 9), (18, 23)], 2.5, 1.3⟩] : List Pattern) := by
  unfold DEVICE_PATTERNS at hp
  repeat' split at hp
  all_goals simp_all

/-! ### Refinement: the source loop equals the spec wording -/

theorem peakFold_eq_filter (p : Pattern) (h : ℕ) (r : ℕ → ℚ) (l : List (ℕ × ℕ)) (b : ℚ × ℕ) :
    l.foldl (peakFoldStep p h r) b
      = (l.filter (fun w => decide (w.1 ≤ h ∧ h < w.2))).foldl
          (fun ck _ => (ck.1 * p.peak_multiplier * (0.7 + r ck.2 * 0.6), ck.2 + 1)) b :=
  foldl_if_filter (fun w : ℕ × ℕ => w.1 ≤ h ∧ h < w.2)
    (fun ck : ℚ × ℕ => (ck.1 * p.peak_multiplier * (0.7 + r ck.2 * 0.6), ck.2 + 1)) l b

theorem specHourValue_eq (p : Pattern) (wknd : Bool) (h : ℕ) (r : ℕ → ℚ) (k : ℕ) :
    specHourValue p wknd h r k = hourValue p wknd h r k := by
  simp only [specHourValue, hourValue, unifDraw, peakFold_eq_filter]
  norm_num

theorem specHourlyFrom_eq (p : Pattern) (wknd : Bool) (r : ℕ → ℚ) :
    ∀ (hs : List ℕ) (k : ℕ), specHourlyFrom p wknd r hs k = hourlyFrom p wknd r hs k := by
  intro hs
  induction hs with
  | nil => intro k; rfl
  | cons h hs ih =>
    intro k
    simp [specHourlyFrom, hourlyFrom, specHourValue_eq, ih]

theorem hourlyFrom_mem_nonneg (p : Pattern) (wknd : Bool) (r : ℕ → ℚ)
    (hb : 0 ≤ p.base_load) (hpm : 0 ≤ p.peak_multiplier) (hwm : 0 ≤ p.weekend_multiplier)
    (hr : ∀ n, 0 ≤ r n) :
    ∀ (hs : List ℕ) (k : ℕ), ∀ x ∈ (hourlyFrom p wknd r hs k).1, 0 ≤ x := by
  intro hs
  induction hs with
  | nil => intro k x hx; simp [hourlyFrom] at hx
  | cons h hs ih =>
    intro k x hx
    simp only [hourlyFrom, List.mem_cons] at hx
    rcases hx with hx | hx
    · subst hx
      exact hourValue_fst_nonneg p wknd h r k hb hpm hwm hr
    · exact ih _ x hx

/-! ### Claims -/

/-- C1: for every device identifier and date, each hour h in [0,24) is
computed as base_load times a fresh U(0.8, 1.2) draw, then once per peak
window containing h a multiplication by peak_multiplier and a fresh
independent U(0.7, 1.3) draw (compounding over windows), then the weekend
multiplier on Saturday/Sunday dates, then rounding to 3 decimals: the
source loop agrees with this spec-worded algorithm on every draw stream. -/
theorem C1_hourly_algorithm (device_id : String) (date : ℤ) (r : ℕ → ℚ) :
    generate_mock_hourly_data device_id date r = spec_generate_hourly device_id date r := by
  simp [generate_mock_hourly_data, spec_generate_hourly, hourlyForPattern, specHourlyFrom_eq]

/-- C2: for every device identifier (known or unknown), every date and
every stream of unit draws, the hourly generator returns exactly 24
values, all non-negative. -/
theorem C2_hourly_length_nonneg (device_id : String) (date : ℤ) (r : ℕ → ℚ)
    (hr : ∀ n, 0 ≤ r n) :
    (generate_mock_hourly_data device_id date r).length = 24 ∧
      ∀ x ∈ generate_mock_hourly_data device_id date r, 0 ≤ x := by
  obtain ⟨hb, hpm, hwm⟩ := getPattern_nonneg device_id
  constructor
  · simp [generate_mock_hourly_data, hourlyForPattern, hourlyFrom_length]
  · intro x hx
    exact hourlyFrom_mem_nonneg (getPattern device_id) (isWeekendDay date) r
      hb hpm hwm hr (List.range 24) 0 x hx

/-- Witness for C2 at a concrete device, date and stream. -/
theorem C2_witness :
    (generate_mock_hourly_data "device1" 0 midStream).length = 24 ∧
      ∀ x ∈ generate_mock_hourly_data "device1" 0 midStream, 0 ≤ x :=
  C2_hourly_length_nonneg "device1" 0 midStream (fun _ => by norm_num [midStream])

/-- C3: an unknown device identifier does not make the hourly generator
fail: it resolves to the fixed default profile (base_load 0.02, single
peak window 9-21, peak multiplier 2, weekend multiplier 1.1) and, on the
same date and draw stream, produces exactly the output of running the
generator loop on an explicit profile with those values. -/
theorem C3_unknown_default (device_id : String) (hp : DEVICE_PATTERNS device_id = none) :
    getPattern device_id = defaultPattern ∧
      defaultPattern = ⟨0.02, [(9, 21)], 2, 1.1⟩ ∧
      ∀ (date : ℤ) (r : ℕ → ℚ),
        generate_mock_hourly_data device_id date r
          = (hourlyForPattern ⟨0.02, [(9, 21)], 2, 1.1⟩ date r 0).1 := by
  have hgp : getPattern device_id = defaultPattern := by simp [getPattern, hp]
  refine ⟨hgp, rfl, ?_⟩
  intro date r
  rw [generate_mock_hourly_data, hgp]
  rfl

/-- Witness for C3 at the concrete unmapped identifier "lamp". -/
theorem C3_witness :
    getPattern "lamp" = defaultPattern ∧
      generate_mock_hourly_data "lamp" 0 midStream
        = (hourlyForPattern ⟨0.02, [(9, 21)], 2, 1.1⟩ 0 midStream 0).1 :=
  ⟨(C3_unknown_default "lamp" (by decide)).1,
   (C3_unknown_default "lamp" (by decide)).2.2 0 midStream⟩

/-- C9: for every month in 1..12, get_quarter_start_month returns the
first month of its calendar quarter: a member of {1, 4, 7, 10}, at most
the input month, and less than 3 months below it. -/
theorem C9_quarter_start (m : ℕ) (h1 : 1 ≤ m) (h2 : m ≤ 12) :
    get_quarter_start_month m ∈ ({1, 4, 7, 10} : Finset ℕ) ∧
      get_quarter_start_month m ≤ m ∧ m - get_quarter_start_month m < 3 := by
  interval_cases m <;> decide

/-- Witness for C9 at month 5. -/
theorem C9_witness :
    get_quarter_start_month 5 ∈ ({1, 4, 7, 10} : Finset ℕ) ∧
      get_quarter_start_month 5 ≤ 5 ∧ 5 - get_quarter_start_month 5 < 3 :=
  C9_quarter_start 5 (by norm_num) (by norm_num)

/-- C10: to_dict always reports type "SMART.TAPOPLUG" and model "P110"
regardless of the type and model the instance was constructed with, and
its output depends only on the device_id and name fields. -/
theorem C10_to_dict (info : MockDeviceInfo) :
    info.to_dict.type = "SMART.TAPOPLUG" ∧ info.to_dict.model = "P110" ∧
      info.to_dict.device_id = info.device_id ∧ info.to_dict.name = info.name ∧
      ∀ info2 : MockDeviceInfo, info2.device_id = info.device_id →
        info2.name = info.name → info2.to_dict = info.to_dict := by
  refine ⟨rfl, rfl, rfl, rfl, ?_⟩
  intro info2 hid hname
  simp [MockDeviceInfo.to_dict, hid, hname]

/-- Witness for C10: two instances differing only in their type and model
fields have equal to_dict output, with the hard-coded tags. -/
theorem C10_witness :
    (⟨"1", "Sonos Lamp", "X", "Y"⟩ : MockDeviceInfo).to_dict
        = (⟨"1", "Sonos Lamp", "SMART.TAPOPLUG", "P110"⟩ : MockDeviceInfo).to_dict ∧
      (⟨"1", "Sonos Lamp", "SMART.TAPOPLUG", "P110"⟩ : MockDeviceInfo).to_dict.type
        = "SMART.TAPOPLUG" :=
  ⟨(C10_to_dict ⟨"1", "Sonos Lamp", "SMART.TAPOPLUG", "P110"⟩).2.2.2.2
      ⟨"1", "Sonos Lamp", "X", "Y"⟩ rfl rfl,
   (C10_to_dict ⟨"1", "Sonos Lamp", "SMART.TAPOPLUG", "P110"⟩).1⟩

/-- Element access of the hourly generator under the midpoint stream. -/
theorem generate_mid_get (device_id : String) (d : ℤ) (h : ℕ) (hh : h < 24) :
    (generate_mock_hourly_data device_id d midStream)[h]?
      = some ((hourValue (getPattern device_id) (isWeekendDay d) h midStream 0).1) :=
  generate_const_get device_id d (1 / 2) h hh

theorem peakFold_no_match (p : Pattern) (h : ℕ) (r : ℕ → ℚ) :
    ∀ (l : List (ℕ × ℕ)) (ck : ℚ × ℕ), (∀ w ∈ l, ¬(w.1 ≤ h ∧ h < w.2)) →
      l.foldl (peakFoldStep p h r) ck = ck := by
  intro l
  induction l with
  | nil => intro ck _; rfl
  | cons w ws ih =>
    intro ck hl
    have hw := hl w (List.mem_cons_self w ws)
    simp only [List.foldl_cons, peakFoldStep, if_neg hw]
    exact ih ck (fun v hv => hl v (List.mem_cons_of_mem w hv))

/-- C4: the daily generator returns exactly max(days, 0) values (empty for
days ≤ 0), and the i-th value is the rounded, jittered sum of the 24-value
hourly series generated for start + i days, each day reading its own
segment of the draw stream (no state carried between days). -/
theorem C4_daily (device_id : String) (start days : ℤ) (r : ℕ → ℚ) :
    ((generate_mock_daily_data device_id start days r).length : ℤ) = max days 0 ∧
      (days ≤ 0 → generate_mock_daily_data device_id start days r = []) ∧
      ∀ i : ℕ, (i : ℤ) < days →
        (generate_mock_daily_data device_id start days r)[i]?
          = some (dayValue (getPattern device_id) (start + i) r
              (i * dayDraws (getPattern device_id))) := by
  refine ⟨?_, ?_, ?_⟩
  · simp [generate_mock_daily_data, dailyForPattern, dailyFrom_length, Int.toNat_eq_max]
  · intro hd
    have h0 : days.toNat = 0 := by omega
    simp [generate_mock_daily_data, dailyForPattern, h0, dailyFrom]
  · intro i hi
    have hi2 : i < days.toNat := by omega
    have hget := dailyFrom_get (getPattern device_id) r days.toNat start 0 i hi2
    simpa [generate_mock_daily_data, dailyForPattern] using hget

/-- Witness for C4 at a concrete device, start, day counts and stream. -/
theorem C4_witness :
    generate_mock_daily_data "device1" 0 (-3) midStream = [] ∧
      (generate_mock_daily_data "device1" 0 2 midStream)[1]?
        = some (dayValue (getPattern "device1") (0 + (1 : ℕ)) midStream
            (1 * dayDraws (getPattern "device1"))) :=
  ⟨(C4_daily "device1" 0 (-3) midStream).2.1 (by norm_num),
   (C4_daily "device1" 0 2 midStream).2.2 1 (by norm_num)⟩

/-- C5: with every unit draw fixed to the midpoint 1/2 (so every uniform
draw returns its range midpoint), the hourly generator is deterministic,
and a profile with base_load 0.02 produces exactly 0.02 at a weekday hour
covered by no peak window. -/
theorem C5_midpoint_deterministic (device_id : String) (d : ℤ) (h : ℕ)
    (hwk : isWeekendDay d = false) (hh : h < 24)
    (hb : (getPattern device_id).base_load = 0.02)
    (hnp : ∀ w ∈ (getPattern device_id).peak_hours, ¬(w.1 ≤ h ∧ h < w.2)) :
    (∀ (id2 : String) (d2 : ℤ), id2 = device_id → d2 = d →
        generate_mock_hourly_data id2 d2 midStream
          = generate_mock_hourly_data device_id d midStream) ∧
      (generate_mock_hourly_data device_id d midStream)[h]? = some 0.02 := by
  constructor
  · intro id2 d2 h1 h2
    rw [h1, h2]
  · rw [generate_mid_get device_id d h hh, hwk]
    simp only [hourValue]
    rw [peakFold_no_match _ _ _ _ _ hnp, hb]
    norm_num [round3, midStream, round_eq]

/-- Witness for C5 at device1 (base_load 0.02, peak window 18-23), hour 0
of a Monday. -/
theorem C5_witness :
    (generate_mock_hourly_data "device1" 0 midStream)[0]? = some (0.02 : ℚ) ∧
      generate_mock_hourly_data "device1" 0 midStream
        = generate_mock_hourly_data "device1" 0 midStream :=
  ⟨(C5_midpoint_deterministic "device1" 0 0 (by decide) (by norm_num)
      rfl (by decide)).2,
   (C5_midpoint_deterministic "device1" 0 0 (by decide) (by norm_num)
      rfl (by decide)).1 "device1" 0 rfl rfl⟩

theorem peakFold_fst_const_pow (p : Pattern) (h : ℕ) (c : ℚ) :
    ∀ (l : List (ℕ × ℕ)) (x : ℚ) (k : ℕ),
      (l.foldl (peakFoldStep p h (fun _ => c)) (x, k)).1
        = x * (p.peak_multiplier * (0.7 + c * 0.6))
            ^ (l.filter (fun w => decide (w.1 ≤ h ∧ h < w.2))).length := by
  intro l
  induction l with
  | nil => intro x k; simp
  | cons w ws ih =>
    intro x k
    by_cases hw : w.1 ≤ h ∧ h < w.2
    · rw [List.foldl_cons]
      have hstep : peakFoldStep p h (fun _ => c) (x, k) w
          = (x * p.peak_multiplier * (0.7 + c * 0.6), k + 1) := by
        simp [peakFoldStep, hw]
      have hfil : (w :: ws).filter (fun v => decide (v.1 ≤ h ∧ h < v.2))
          = w :: ws.filter (fun v => decide (v.1 ≤ h ∧ h < v.2)) := by
        simp [List.filter_cons, hw]
      rw [hstep, ih, hfil, List.length_cons, pow_succ]
      ring
    · rw [List.foldl_cons]
      have hstep : peakFoldStep p h (fun _ => c) (x, k) w = (x, k) := by
        simp [peakFoldStep, hw]
      have hfil : (w :: ws).filter (fun v => decide (v.1 ≤ h ∧ h < v.2))
          = ws.filter (fun v => decide (v.1 ≤ h ∧ h < v.2)) := by
        simp [List.filter_cons, hw]
      rw [hstep, hfil, ih]

/-- Under the midpoint stream the hour value is the base load times the
peak multiplier once per matching window, times the weekend factor,
rounded: every uniform factor collapses to 1. -/
theorem hourValue_fst_mid (p : Pattern) (wknd : Bool) (h : ℕ) (k : ℕ) :
    (hourValue p wknd h midStream k).1
      = round3 (p.base_load * p.peak_multiplier ^ matchCount p h
          * (if wknd then p.weekend_multiplier else 1)) := by
  have hm : midStream = fun _ => (1 / 2 : ℚ) := rfl
  simp only [hourValue, hm]
  rw [peakFold_fst_const_pow]
  have h1 : p.base_load * ((0.8 : ℚ) + 1 / 2 * 0.4) = p.base_load := by norm_num
  have h2 : p.peak_multiplier * ((0.7 : ℚ) + 1 / 2 * 0.6) = p.peak_multiplier := by
    norm_num
  rw [h1, h2]
  cases wknd with
  | false => simp [matchCount]
  | true => simp [matchCount]

/-- C6 is false as stated: for device2 at hour 0 (outside its peak window)
with midpoint draws, the Monday value is 0.015, but the Saturday value is
round(0.015 * 1.5, 3) = 0.023, which is not 0.015 scaled exactly by the
weekend multiplier 1.5 (that would be 0.0225): rounding happens after the
weekend scaling, so the rounded values do not scale exactly. -/
theorem C6_counterexample :
    isWeekendDay 5 = true ∧ isWeekendDay 0 = false ∧
      (generate_mock_hourly_data "device2" 0 midStream)[0]? = some (0.015 : ℚ) ∧
      (getPattern "device2").weekend_multiplier = 1.5 ∧
      (generate_mock_hourly_data "device2" 5 midStream)[0]?
        ≠ some ((0.015 : ℚ) * 1.5) := by
  have hp : getPattern "device2" = ⟨0.015, [(14, 22)], 4, 1.5⟩ := rfl
  have hw0 : isWeekendDay 0 = false := by decide
  have hw5 : isWeekendDay 5 = true := by decide
  refine ⟨hw5, hw0, ?_, rfl, ?_⟩
  · rw [generate_mid_get "device2" 0 0 (by norm_num), hw0, hourValue_fst_mid, hp]
    norm_num [matchCount, round3, round_eq]
  · rw [generate_mid_get "device2" 5 0 (by norm_num), hw5, hourValue_fst_mid, hp]
    norm_num [matchCount, round3, round_eq]

/-- C6 amended: with midpoint draws, the weekend hourly value equals the
weekday pre-rounding value for the same hour and profile scaled exactly by
the weekend multiplier, with the rounding to 3 decimals applied after the
scaling (the claim as written asserted the scaling of the already-rounded
values, which the rounding step breaks). -/
theorem C6_amended_weekend_scaling (device_id : String) (d1 d2 : ℤ) (h : ℕ)
    (hw1 : isWeekendDay d1 = true) (hw2 : isWeekendDay d2 = false) (hh : h < 24) :
    (generate_mock_hourly_data device_id d1 midStream)[h]?
        = some (round3 (rawHourValue (getPattern device_id) false h midStream 0
            * (getPattern device_id).weekend_multiplier)) ∧
      (generate_mock_hourly_data device_id d2 midStream)[h]?
        = some (round3 (rawHourValue (getPattern device_id) false h midStream 0)) := by
  constructor
  · rw [generate_mid_get device_id d1 h hh, hw1, hourValue_fst_round3,
      rawHourValue_weekend]
  · rw [generate_mid_get device_id d2 h hh, hw2, hourValue_fst_round3]

/-- Witness for the amended C6 at device2, Saturday (day 5) against Monday
(day 0), hour 0. -/
theorem C6_witness :
    (generate_mock_hourly_data "device2" 5 midStream)[0]?
        = some (round3 (rawHourValue (getPattern "device2") false 0 midStream 0
            * (getPattern "device2").weekend_multiplier)) ∧
      (generate_mock_hourly_data "device2" 0 midStream)[0]?
        = some (round3 (rawHourValue (getPattern "device2") false 0 midStream 0)) :=
  C6_amended_weekend_scaling "device2" 5 0 0 (by decide) (by decide) (by norm_num)

/-- C7: with midpoint draws, for every profile in the device table and
every date, every hourly value at an hour inside some peak window strictly
exceeds every hourly value at an hour inside no peak window, for the same
profile and date. -/
theorem C7_peak_dominates (device_id : String) (p : Pattern)
    (hp : DEVICE_PATTERNS device_id = some p) (d : ℤ) (h1 h2 : ℕ)
    (hh1 : h1 < 24) (hh2 : h2 < 24)
    (hin : ∃ pw ∈ p.peak_hours, pw.1 ≤ h1 ∧ h1 < pw.2)
    (hout : ∀ pw ∈ p.peak_hours, ¬(pw.1 ≤ h2 ∧ h2 < pw.2))
    (v1 v2 : ℚ)
    (hv1 : (generate_mock_hourly_data device_id d midStream)[h1]? = some v1)
    (hv2 : (generate_mock_hourly_data device_id d midStream)[h2]? = some v2) :
    v2 < v1 := by
  have hgp : getPattern device_id = p := by simp [getPattern, hp]
  rw [generate_mid_get device_id d h1 hh1, hgp, hourValue_fst_mid] at hv1
  rw [generate_mid_get device_id d h2 hh2, hgp, hourValue_fst_mid] at hv2
  have e1 := Option.some.inj hv1
  have e2 := Option.some.inj hv2
  subst e1
  subst e2
  have hm2 : matchCount p h2 = 0 := by
    rw [matchCount, List.length_eq_zero, List.filter_eq_nil_iff]
    intro pw hmem
    simpa using hout pw hmem
  have hm1 : 1 ≤ matchCount p h1 := by
    obtain ⟨pw, hmem, hcond⟩ := hin
    have hf : pw ∈ p.peak_hours.filter (fun v => decide (v.1 ≤ h1 ∧ h1 < v.2)) :=
      List.mem_filter.mpr ⟨hmem, by simpa using hcond⟩
    exact List.length_pos_of_mem hf
  have hmle : matchCount p h1 ≤ p.peak_hours.length :=
    List.length_filter_le _ _
  rw [hm2, pow_zero, mul_one]
  have hmem3 := DEVICE_PATTERNS_mem hp
  simp only [List.mem_cons, List.not_mem_nil, or_false] at hmem3
  rcases hmem3 with hq | hq | hq
  · subst hq
    have hk1 : matchCount ⟨0.02, [(18, 23)], 3, 1.2⟩ h1 = 1 := by
      simp at hmle
      omega
    rw [hk1]
    cases isWeekendDay d <;> norm_num [round3, round_eq]
  · subst hq
    have hk1 : matchCount ⟨0.015, [(14, 22)], 4, 1.5⟩ h1 = 1 := by
      simp at hmle
      omega
    rw [hk1]
    cases isWeekendDay d <;> norm_num [round3, round_eq]
  · subst hq
    have hk1 : matchCount ⟨0.05, [(7, 9), (18, 23)], 2.5, 1.3⟩ h1 = 1 ∨
        matchCount ⟨0.05, [(7, 9), (18, 23)], 2.5, 1.3⟩ h1 = 2 := by
      simp at hmle
      omega
    rcases hk1 with hk1 | hk1 <;> rw [hk1] <;>
      cases isWeekendDay d <;> norm_num [round3, round_eq]

/-- Witness for C7: device1 on a Monday, peak hour 18 against hour 0. -/
theorem C7_witness :
    (generate_mock_hourly_data "device1" 0 midStream)[18]? = some (0.06 : ℚ) ∧
      (generate_mock_hourly_data "device1" 0 midStream)[0]? = some (0.02 : ℚ) ∧
      (0.02 : ℚ) < 0.06 := by
  have hw0 : isWeekendDay 0 = false := by decide
  have hp : getPattern "device1" = ⟨0.02, [(18, 23)], 3, 1.2⟩ := rfl
  have hv1 : (generate_mock_hourly_data "device1" 0 midStream)[18]? = some (0.06 : ℚ) := by
    rw [generate_mid_get "device1" 0 18 (by norm_num), hw0, hourValue_fst_mid, hp]
    norm_num [matchCount, round3, round_eq]
  have hv2 : (generate_mock_hourly_data "device1" 0 midStream)[0]? = some (0.02 : ℚ) := by
    rw [generate_mid_get "device1" 0 0 (by norm_num), hw0, hourValue_fst_mid, hp]
    norm_num [matchCount, round3, round_eq]
  refine ⟨hv1, hv2, ?_⟩
  exact C7_peak_dominates "device1" ⟨0.02, [(18, 23)], 3, 1.2⟩ rfl 0 18 0
    (by norm_num) (by norm_num) ⟨(18, 23), by simp, by norm_num, by norm_num⟩
    (by decide) 0.06 0.02 hv1 hv2

/-- C8: the mock device reading carries the identifier, the display name
from the fixed name table with fallback "Device {id}", the fixed tags
type "SMART.TAPOPLUG" and model "P110"; its hourly data is the 24-entry
series generated for the current date; its daily data has exactly 30
entries generated from a start date 29 days back, the i-th for date
now - 29 + i, so the series ends on and includes the current day; and
both series are stamped with the current time. -/
theorem C8_device_reading (device_id : String) (now : ℤ) (r : ℕ → ℚ) :
    (get_mock_device_data device_id now r).device_info.device_id = device_id ∧
      (∀ n, MOCK_DEVICE_NAMES device_id = some n →
        (get_mock_device_data device_id now r).device_info.name = n) ∧
      (MOCK_DEVICE_NAMES device_id = none →
        (get_mock_device_data device_id now r).device_info.name
          = "Device " ++ device_id) ∧
      (get_mock_device_data device_id now r).device_info.type = "SMART.TAPOPLUG" ∧
      (get_mock_device_data device_id now r).device_info.model = "P110" ∧
      (get_mock_device_data device_id now r).hourly.data
        = generate_mock_hourly_data device_id now r ∧
      (get_mock_device_data device_id now r).hourly.data.length = 24 ∧
      (get_mock_device_data device_id now r).daily.data.length = 30 ∧
      (∀ i : ℕ, i < 30 →
        (get_mock_device_data device_id now r).daily.data[i]?
          = some (dayValue (getPattern device_id) (now - 29 + i) r
              (hourlyDraws (getPattern device_id)
                + i * dayDraws (getPattern device_id)))) ∧
      (get_mock_device_data device_id now r).daily.data[29]?
        = some (dayValue (getPattern device_id) now r
            (hourlyDraws (getPattern device_id)
              + 29 * dayDraws (getPattern device_id))) ∧
      (get_mock_device_data device_id now r).hourly.time_stamp = now ∧
      (get_mock_device_data device_id now r).daily.time_stamp = now := by
  have hk2 : (hourlyForPattern (getPattern device_id) now r 0).2
      = hourlyDraws (getPattern device_id) := by
    simp [hourlyForPattern, hourlyFrom_snd, hourlyDraws]
  have hdata : (get_mock_device_data device_id now r).daily.data
      = (dailyFrom (getPattern device_id) r (30 : ℤ).toNat (now - 29)
          (hourlyDraws (getPattern device_id))).1 := by
    simp [get_mock_device_data, dailyForPattern, hk2]
  have hget : ∀ i : ℕ, i < 30 →
      (get_mock_device_data device_id now r).daily.data[i]?
        = some (dayValue (getPattern device_id) (now - 29 + i) r
            (hourlyDraws (getPattern device_id)
              + i * dayDraws (getPattern device_id))) := by
    intro i hi
    rw [hdata, dailyFrom_get _ _ _ _ _ i (by omega)]
  refine ⟨rfl, ?_, ?_, rfl, rfl, rfl, ?_, ?_, hget, ?_, rfl, rfl⟩
  · intro n hn
    simp [get_mock_device_data, hn]
  · intro hn
    simp [get_mock_device_data, hn]
  · simp [get_mock_device_data, hourlyForPattern, hourlyFrom_length]
  · rw [hdata, dailyFrom_length]
    rfl
  · have h29 := hget 29 (by norm_num)
    have harg : now - 29 + ((29 : ℕ) : ℤ) = now := by norm_num
    rw [h29, harg]

/-- Witness for C8 at a concrete device, time and stream. -/
theorem C8_witness :
    (get_mock_device_data "device1" 0 midStream).device_info.name = "Sonos Lamp" ∧
      (get_mock_device_data "device1" 0 midStream).daily.data[0]?
        = some (dayValue (getPattern "device1") (0 - 29 + (0 : ℕ)) midStream
            (hourlyDraws (getPattern "device1")
              + 0 * dayDraws (getPattern "device1"))) ∧
      (get_mock_device_data "device1" 0 midStream).hourly.data.length = 24 := by
  obtain ⟨h1, h2, h3, h4, h5, h6, h7, h8, h9, h10, h11, h12⟩ :=
    C8_device_reading "device1" 0 midStream
  exact ⟨h2 "Sonos Lamp" rfl, h9 0 (by norm_num), h7⟩

end TapoPull
